import Mathlib

/-!
Verification of the PPS recommendation/consensus engine of the
HackathonChatGPT backend (src/BackEnd/action_runner.py and
src/BackEnd/app.py), as a shallow embedding in Lean 4.

Conventions of the embedding:
* Python ints are `Int` (timestamps) or `Nat` (counts); Python floats that
  only ever feed comparisons (distances) are `Rat`.  The external
  `geopy.distance.geodesic` library call (together with `round(_, 2)`) is
  modelled by an explicit distance function parameter `dist : Center → Rat`.
* JSON dict reads with `.get(key, default)` on possibly-missing keys are
  modelled with `Option` fields and `Option.getD`.
* The module-level globals `PPS_CENTERS` and `LIVE_REPORTS_AGGREGATED` and
  the on-disk report file are threaded explicitly (`ServerState`).
* File IO errors, which the source converts into "no data", are outside the
  embedding: functions take the already-parsed report list.
-/

/-- Python `str.upper()` restricted to ASCII, as all compared keywords are
ASCII.  Equivalent to `String.toUpper` (same `Char.toUpper` per character)
but stated on the character list so that it reduces in the kernel. -/
def asciiUpper (s : String) : String := ⟨s.data.map Char.toUpper⟩

/-- Python `str.lower()` restricted to ASCII; see `asciiUpper`. -/
def asciiLower (s : String) : String := ⟨s.data.map Char.toLower⟩

/-- Python `str.strip()`: drop leading and trailing whitespace.  Equivalent
to `String.trim`, stated on the character list so that it reduces. -/
def pyStrip (s : String) : String :=
  ⟨((s.data.dropWhile Char.isWhitespace).reverse.dropWhile Char.isWhitespace).reverse⟩

/-- One crowdsourced status report, as stored in `pps_live_status.json`.
Fields read back with `report.get(...)` in `refresh_live_reports_from_disk`
are `Option`s; `app.py` always writes all four fields. -/
structure Report where
  pps_name : Option String
  status : Option String
  reporter_id : String
  timestamp : Option Int
deriving DecidableEq, Repr

/-- One value of the `LIVE_REPORTS_AGGREGATED` dict
(action_runner.py lines 115-119). -/
structure AggEntry where
  final_status : String
  reason : String
  latest_timestamp : Option Int
deriving DecidableEq, Repr

/-- `REPORT_TIMEOUT_SEC = 6 * 60 * 60` (action_runner.py line 17). -/
def REPORT_TIMEOUT_SEC : Int := 6 * 60 * 60

/-- `CRITICAL_CONSENSUS_THRESHOLD = 2` (action_runner.py line 18). -/
def CRITICAL_CONSENSUS_THRESHOLD : Nat := 2

/-- `report.get("pps_name")` with Python truthiness: a missing name and an
empty name behave identically (both fail `if pps_name:`), so both are
represented by `""`. -/
def reportName (r : Report) : String :=
  r.pps_name.getD ""

/-- Membership test of `r.get("status", "").upper()` in
`("FULL", "CRITICAL_ISSUE")` (action_runner.py lines 96-99). -/
def isCriticalReport (r : Report) : Bool :=
  let s := asciiUpper (r.status.getD "")
  s == "FULL" || s == "CRITICAL_ISSUE"

/-- Step 1 of `refresh_live_reports_from_disk` (lines 78-81): keep reports
with `current_time - report.get("timestamp", 0) < REPORT_TIMEOUT_SEC`. -/
def recentReports (all_reports : List Report) (current_time : Int) : List Report :=
  all_reports.filter fun r => current_time - r.timestamp.getD 0 < REPORT_TIMEOUT_SEC

/-- Key set of `reports_by_pps` in first-insertion order (lines 84-90):
names are added when truthy and not yet present. -/
def groupNames (rs : List Report) : List String :=
  rs.foldl (fun acc r => if reportName r ≠ "" ∧ reportName r ∉ acc then acc ++ [reportName r] else acc) []

/-- `reports.sort(key=lambda r: r.get("timestamp", 0), reverse=True)` followed
by `reports[0]` (lines 101-102): the stable descending sort puts first the
earliest report carrying the maximal timestamp, which is what this fold
computes; `none` is returned only for an empty group (never built). -/
def latestReport (reports : List Report) : Option Report :=
  match reports with
  | [] => none
  | r :: rs => some (rs.foldl (fun best x => if x.timestamp.getD 0 > best.timestamp.getD 0 then x else best) r)

/-- Step 3 of `refresh_live_reports_from_disk` (lines 93-119): the final
status of one per-center report group. -/
def aggregateGroup (reports : List Report) : AggEntry :=
  let critical_reports := reports.filter isCriticalReport
  match latestReport reports with
  | none =>
      { final_status := "OK", reason := "No recent critical reports.", latest_timestamp := none }
  | some latest_report =>
      if critical_reports.length ≥ CRITICAL_CONSENSUS_THRESHOLD then
        { final_status := "CRITICAL_ISSUE",
          reason := "Consensus: " ++ toString critical_reports.length ++ " recent reports confirm critical status.",
          latest_timestamp := latest_report.timestamp }
      else if critical_reports.length ≥ 1 then
        { final_status := "WARNING",
          reason := "Warning: 1 user reported critical status. Needs verification.",
          latest_timestamp := latest_report.timestamp }
      else
        { final_status := latest_report.status.getD "OK",
          reason := "No recent critical reports.",
          latest_timestamp := latest_report.timestamp }

/-- The pure core of `refresh_live_reports_from_disk` (lines 62-119): the
new value of `LIVE_REPORTS_AGGREGATED` given the parsed report file and
`current_time = int(time.time())`.  Grouping a list by key while keeping
encounter order (the Python dict-of-lists) is expressed as a filter per
first-occurrence key. -/
def aggregateReports (all_reports : List Report) (current_time : Int) : List (String × AggEntry) :=
  let recent := recentReports all_reports current_time
  (groupNames recent).map fun n => (n, aggregateGroup (recent.filter fun r => reportName r == n))

/-- Occurrence of `needle` as a contiguous substring of `hay`, scanning every
position, as `re.search` does for a pattern that is an alternation of
literals. -/
def containsSub (needle : List Char) : List Char → Bool
  | [] => needle.isEmpty
  | c :: rest => needle.isPrefixOf (c :: rest) || containsSub needle rest

/-- Literals of the regex alternation for `ground_floor`
(action_runner.py line 145). -/
def GROUND_FLOOR_PATTERNS : List String :=
  ["wheelchair", "oku", "disabled access", "ground", "tingkat bawah", "lantai bawah"]

/-- Literals of the regex alternation for `oku_toilets` (line 147). -/
def OKU_TOILETS_PATTERNS : List String :=
  ["oku toilet", "tandas oku", "disabled toilet", "accessible toilet"]

/-- Literals of the regex alternation for `pet_area` (line 148). -/
def PET_AREA_PATTERNS : List String :=
  ["pet", "cat", "dog", "animal", "haiwan", "kucing", "anjing"]

/-- Literals of the regex alternation for `family_room` (line 149). -/
def FAMILY_ROOM_PATTERNS : List String :=
  ["family", "babies", "nursing", "newborn", "keluarga", "bayi", "menyusu"]

/-- `bool(re.search(p1|...|pk, query, re.IGNORECASE))` for an alternation of
literal patterns: some literal occurs in the query, compared
case-insensitively. -/
def searchCI (patterns : List String) (query : String) : Bool :=
  patterns.any fun p => containsSub (asciiLower p).data (asciiLower query).data

/-- The four need flags returned by `extract_needs`
(action_runner.py lines 142-151). -/
structure NeedFlags where
  ground_floor : Bool
  oku_toilets : Bool
  pet_area : Bool
  family_room : Bool
deriving DecidableEq, Repr

/-- `extract_needs(query)` (action_runner.py lines 142-151). -/
def extract_needs (query : String) : NeedFlags :=
  { ground_floor := searchCI GROUND_FLOOR_PATTERNS query
    oku_toilets := searchCI OKU_TOILETS_PATTERNS query
    pet_area := searchCI PET_AREA_PATTERNS query
    family_room := searchCI FAMILY_ROOM_PATTERNS query }

/-- `needs.items()` in declaration order, used both for `any(needs.values())`
and for the required-needs comprehension (lines 168, 201). -/
def needsItems (n : NeedFlags) : List (String × Bool) :=
  [("ground_floor", n.ground_floor), ("oku_toilets", n.oku_toilets),
   ("pet_area", n.pet_area), ("family_room", n.family_room)]

/-- `[need for need, required in needs.items() if required]` (line 201). -/
def requiredNeeds (n : NeedFlags) : List String :=
  ((needsItems n).filter fun x => x.2).map fun x => x.1

/-- `CAPABILITY_MAP` (action_runner.py lines 182-187): need kind to
`(positive tag, negative tag)`. -/
def CAPABILITY_MAP : List (String × String × String) :=
  [("ground_floor", "ground_floor", "stairs_only"),
   ("oku_toilets", "oku_toilets", "no_oku_toilets"),
   ("pet_area", "designated_pet_area", "no_pets"),
   ("family_room", "family_room", "no_family_room")]

/-- One entry of `TRANSLATION_MAP` (action_runner.py lines 31-52).  The two
Python `str.format` templates (`failed_suffix`, `fallback_msg`) are modelled
as functions of their single placeholder. -/
structure LangMap where
  matched : String
  missing : String
  failedPre : String
  failedSuf : String → String
  no_report : String
  criticalPre : String
  warningPre : String
  fallbackMsg : String → String

/-- `TRANSLATION_MAP["en"]` (lines 32-41). -/
def TRANSLATION_EN : LangMap :=
  { matched := "‚úì Matched"
    missing := "? Info Missing"
    failedPre := "‚úó Failed: No"
    failedSuf := fun neg_key => "(Has \x27" ++ neg_key ++ "\x27)"
    no_report := "No recent critical/warning report found."
    criticalPre := "üõë CRITICAL LIVE REPORT:"
    warningPre := "‚ö†Ô∏è WARNING LIVE REPORT:"
    fallbackMsg := fun query =>
      "No specific needs detected for query: " ++ query ++ ". Showing closest PPS." }

/-- `TRANSLATION_MAP["ms"]` (lines 42-51). -/
def TRANSLATION_MS : LangMap :=
  { matched := "‚úì Dipadankan"
    missing := "? Maklumat Tiada"
    failedPre := "‚úó Gagal: Tiada"
    failedSuf := fun neg_key => "(Ada \x27" ++ neg_key ++ "\x27)"
    no_report := "Tiada laporan kritikal/amaran ditemui."
    criticalPre := "üõë LAPORAN KRITIKAL LANGSUNG:"
    warningPre := "‚ö†Ô∏è LAPORAN AMARAN LANGSUNG:"
    fallbackMsg := fun query =>
      "Tiada keperluan khusus dikesan untuk pertanyaan: " ++ query ++ ". Menunjukkan PPS terdekat." }

/-- `TRANSLATION_MAP` as an association list (lines 31-52). -/
def TRANSLATION_MAP : List (String × LangMap) :=
  [("en", TRANSLATION_EN), ("ms", TRANSLATION_MS)]

/-- The verdict of the per-need branch of the matching loop. -/
inductive NeedVerdict where
  | MATCHED
  | FAILED
  | UNKNOWN
deriving DecidableEq, Repr

/-- The branch taken by the matching loop for one required need
(action_runner.py lines 211-225): positive tag first, else negative tag,
else missing information. -/
def classifyNeed (capabilities : List String) (pos_key neg_key : String) : NeedVerdict :=
  if pos_key ∈ capabilities then .MATCHED
  else if neg_key ∈ capabilities then .FAILED
  else .UNKNOWN

/-- Body of `for need in required_needs` (action_runner.py lines 203-225).
The accumulator is `(final_reason, all_needs_met, is_explicitly_unsuitable)`,
started as `([], True, False)` (lines 193-196). -/
def needAccum (lang : LangMap) (capabilities : List String)
    (acc : List String × Bool × Bool) (need : String) : List String × Bool × Bool :=
  match CAPABILITY_MAP.lookup need with
  | none => acc
  | some (pos_key, neg_key) =>
    let (final_reason, all_needs_met, is_explicitly_unsuitable) := acc
    match classifyNeed capabilities pos_key neg_key with
    | .MATCHED =>
        (final_reason ++ [lang.matched ++ ": " ++ need], all_needs_met, is_explicitly_unsuitable)
    | .FAILED =>
        (final_reason ++ [lang.failedPre ++ " " ++ need ++ " " ++ lang.failedSuf neg_key], false, true)
    | .UNKNOWN =>
        (final_reason ++ [lang.missing ++ ": " ++ need], false, is_explicitly_unsuitable)

/-- The whole capability-matching loop (lines 193-225). -/
def capabilityPass (lang : LangMap) (capabilities : List String)
    (required_needs : List String) : List String × Bool × Bool :=
  required_needs.foldl (needAccum lang capabilities) ([], true, false)

/-- Capability stage of one center: the loop plus the final-status decision
(action_runner.py lines 189-233): `NOT_SUITABLE` on an explicit exclusion,
`BEST_MATCH` when all required needs matched and there was at least one,
otherwise the initial `SUITABLE`.  Returns `(status, final_reason)`. -/
def capStage (lang : LangMap) (needs : NeedFlags) (capabilities : List String) :
    String × List String :=
  let required_needs := requiredNeeds needs
  let (final_reason, all_needs_met, is_explicitly_unsuitable) :=
    capabilityPass lang capabilities required_needs
  (if is_explicitly_unsuitable then "NOT_SUITABLE"
   else if all_needs_met && !required_needs.isEmpty then "BEST_MATCH"
   else "SUITABLE",
   final_reason)

/-- Live-status override (action_runner.py lines 235-248):
`CRITICAL_ISSUE` always wins and its reason is pushed in front
(`final_reason.insert(0, ...)`); `WARNING` only downgrades a status that is
not already `CRITICAL_ISSUE`/`NOT_SUITABLE`. -/
def liveAdjust (lang : LangMap) (live_report : Option AggEntry)
    (status : String) (final_reason : List String) : String × List String :=
  match live_report with
  | none => (status, final_reason)
  | some live =>
    if live.final_status == "CRITICAL_ISSUE" then
      ("CRITICAL_ISSUE", (lang.criticalPre ++ " " ++ live.reason) :: final_reason)
    else if live.final_status == "WARNING" then
      if status ∉ ["CRITICAL_ISSUE", "NOT_SUITABLE"] then
        ("WARNING", (lang.warningPre ++ " " ++ live.reason) :: final_reason)
      else (status, final_reason)
    else (status, final_reason)

/-- Default-notice step (action_runner.py lines 250-252): append the
localized no-report notice unless the status is in
`("CRITICAL_ISSUE", "WARNING", "NOT_SUITABLE")`. -/
def addNoReportNotice (lang : LangMap) (status : String)
    (final_reason : List String) : List String :=
  if status ∉ ["CRITICAL_ISSUE", "WARNING", "NOT_SUITABLE"] then
    final_reason ++ [lang.no_report]
  else final_reason

/-- One PPS center record (`PPS_CENTERS` entry).  `distance_km` is the key
`run_actions` writes into the shared dict (line 176); it is absent (`none`)
as loaded from `data/live_pps_data.json`. -/
structure Center where
  name : String
  lat : Option Rat
  lon : Option Rat
  capabilities : List String
  distance_km : Option Rat
deriving DecidableEq, Repr

/-- The three stages producing one center's `(status, final_reason)`
(action_runner.py lines 189-252). -/
def buildFragments (lang : LangMap) (live_aggregated : List (String × AggEntry))
    (needs : NeedFlags) (pps : Center) : String × List String :=
  let (status, final_reason) := capStage lang needs pps.capabilities
  let (status, final_reason) :=
    liveAdjust lang (live_aggregated.lookup pps.name) status final_reason
  (status, addNoReportNotice lang status final_reason)

/-- One element of the returned `actions` list (action_runner.py
lines 256-264). -/
structure RecItem where
  type : String
  name : String
  lat : Rat
  lon : Rat
  status : String
  reason : String
  distance_km : Rat
deriving DecidableEq, Repr

/-- Build of one `PPS_RECOMMENDATION` dict (lines 256-264); on this path the
center always carries coordinates and a distance. -/
def buildItem (lang : LangMap) (live_aggregated : List (String × AggEntry))
    (needs : NeedFlags) (pps : Center) : RecItem :=
  let (status, final_reason) := buildFragments lang live_aggregated needs pps
  { type := "PPS_RECOMMENDATION"
    name := pps.name
    lat := pps.lat.getD 0
    lon := pps.lon.getD 0
    status := status
    reason := pyStrip ("(" ++ String.intercalate " | " final_reason ++ ")")
    distance_km := pps.distance_km.getD 0 }

/-- `STATUS_RANKING` dict plus the `.get(status, 99)` read
(action_runner.py lines 21-27 and 268). -/
def STATUS_RANKING (status : String) : Nat :=
  if status == "BEST_MATCH" then 0
  else if status == "SUITABLE" then 1
  else if status == "WARNING" then 2
  else if status == "CRITICAL_ISSUE" then 3
  else if status == "NOT_SUITABLE" then 4
  else 99

/-- Comparison used by the final `actions.sort(key=...)` (lines 266-270):
lexicographic order on `(STATUS_RANKING[status], distance_km)`. -/
def recLe (a b : RecItem) : Bool :=
  decide (STATUS_RANKING a.status < STATUS_RANKING b.status
    ∨ (STATUS_RANKING a.status = STATUS_RANKING b.status ∧ a.distance_km ≤ b.distance_km))

/-- One element of the fallback `recommendations` list (lines 279-286). -/
structure FallbackRec where
  name : String
  status : String
  distance_km : Rat
deriving DecidableEq, Repr

/-- Comparison of the fallback `sorted(..., key=...)` (line 286). -/
def fallbackLe (a b : FallbackRec) : Bool :=
  decide (STATUS_RANKING a.status < STATUS_RANKING b.status
    ∨ (STATUS_RANKING a.status = STATUS_RANKING b.status ∧ a.distance_km ≤ b.distance_km))

/-- Result of `run_actions`: either the ranked recommendation list, or the
single `PPS_NEAREST_FALLBACK` dict (message and nearest-centers list). -/
inductive ActionResult where
  | recs : List RecItem → ActionResult
  | fallback : String → List FallbackRec → ActionResult
deriving DecidableEq, Repr

/-- The write `pps["distance_km"] = round(distance_km, 2)` performed on every
shared center record that has coordinates (action_runner.py lines 172-177);
`dist` stands for the external `geodesic(...).kilometers` call composed with
`round(_, 2)` at the query location. -/
def run_actions_center_effect (dist : Center → Rat) (centers : List Center) : List Center :=
  centers.map fun pps =>
    if pps.lat.isSome && pps.lon.isSome then { pps with distance_km := some (dist pps) }
    else pps

/-- `run_actions(query, lat, lon, language)` (action_runner.py
lines 154-293), over an explicit center list and `LIVE_REPORTS_AGGREGATED`
snapshot; `(lat, lon)` and the geodesic library are abstracted into `dist`
(see `run_actions_center_effect`).  The initial `load_pps_data` call for an
empty center list is file IO and outside the embedding. -/
def run_actions (query language : String) (dist : Center → Rat)
    (centers : List Center) (live_aggregated : List (String × AggEntry)) : ActionResult :=
  let lang := (TRANSLATION_MAP.lookup (asciiLower language)).getD TRANSLATION_EN
  let needs := extract_needs query
  let needs_detected := (needsItems needs).any fun x => x.2
  let all_pps_with_distance :=
    (run_actions_center_effect dist centers).filter fun c => c.lat.isSome && c.lon.isSome
  if needs_detected then
    .recs ((all_pps_with_distance.map (buildItem lang live_aggregated needs)).mergeSort recLe)
  else
    .fallback (lang.fallbackMsg query)
      ((all_pps_with_distance.map fun pps =>
        ({ name := pps.name
           status := ((live_aggregated.lookup pps.name).map fun e => e.final_status).getD "OK"
           distance_km := pps.distance_km.getD 0 } : FallbackRec)).mergeSort fallbackLe)

/-- The recommendation list of a `recs` result (empty for a fallback). -/
def itemsOf (r : ActionResult) : List RecItem :=
  match r with
  | .recs items => items
  | .fallback _ _ => []

/-- The process state touched by the report endpoint: the on-disk report log
`pps_live_status.json` and the module-global `LIVE_REPORTS_AGGREGATED`. -/
structure ServerState where
  reports_file : List Report
  live_reports_aggregated : List (String × AggEntry)
deriving DecidableEq, Repr

/-- `refresh_live_reports_from_disk()` as a state transition: rebuild the
global aggregate from the report log (action_runner.py lines 62-123). -/
def refresh_state (s : ServerState) (now : Int) : ServerState :=
  { s with live_reports_aggregated := aggregateReports s.reports_file now }

/-- State at module import (action_runner.py lines 296-299): the aggregate
is built once from whatever the report log holds; `app.py` lines 57-61
create the log as `[]` when absent. -/
def startup_state (disk_reports : List Report) (now : Int) : ServerState :=
  refresh_state { reports_file := disk_reports, live_reports_aggregated := [] } now

/-- `POST /api/report_pps_status` (app.py lines 136-164): append the report
with the server timestamp to the log and acknowledge.  The endpoint body
contains no call that rebuilds `LIVE_REPORTS_AGGREGATED`. -/
def report_pps_status (s : ServerState) (pps_name status reporter_id : String)
    (now : Int) : ServerState × String :=
  let report_data : Report :=
    { pps_name := some pps_name, status := some status,
      reporter_id := reporter_id, timestamp := some now }
  ({ s with reports_file := s.reports_file ++ [report_data] },
   "Status for " ++ pps_name ++ " reported successfully.")

/-- The loop classifies `need` as MATCHED, read off via `classifyNeed`
(`true` also for a need kind outside `CAPABILITY_MAP`, which the loop
skips without falsifying `all_needs_met`). -/
def needMatches (capabilities : List String) (need : String) : Bool :=
  match CAPABILITY_MAP.lookup need with
  | some (pos_key, neg_key) => classifyNeed capabilities pos_key neg_key == .MATCHED
  | none => true

/-- The loop classifies `need` as FAILED, read off via `classifyNeed`. -/
def needFails (capabilities : List String) (need : String) : Bool :=
  match CAPABILITY_MAP.lookup need with
  | some (pos_key, neg_key) => classifyNeed capabilities pos_key neg_key == .FAILED
  | none => false

/-! ## Supporting lemmas -/

theorem lookup_map_self {β : Type} (f : String → β) :
    ∀ (l : List String) (name : String) (e : β),
      ((l.map fun n => (n, f n)).lookup name) = some e → e = f name ∧ name ∈ l := by
  intro l
  induction l with
  | nil => intro name e h; simp [List.lookup] at h
  | cons x xs ih =>
    intro name e h
    simp only [List.map_cons, List.lookup] at h
    cases hx : name == x with
    | true =>
      rw [hx] at h
      have hfe : f x = e := by simpa using h
      have hne : name = x := by simpa using hx
      subst hne
      exact ⟨hfe.symm, List.mem_cons_self _ _⟩
    | false =>
      rw [hx] at h
      obtain ⟨he, hm⟩ := ih name e h
      exact ⟨he, List.mem_cons_of_mem _ hm⟩

theorem aggregateGroup_status (reports : List Report) :
    (2 ≤ (reports.filter isCriticalReport).length →
      (aggregateGroup reports).final_status = "CRITICAL_ISSUE") ∧
    ((reports.filter isCriticalReport).length = 1 →
      (aggregateGroup reports).final_status = "WARNING") := by
  cases reports with
  | nil => exact ⟨fun hc => by simp at hc, fun hc => by simp at hc⟩
  | cons a as =>
    constructor <;> intro hc <;> simp only [aggregateGroup, latestReport] <;> split
    · rfl
    · exfalso
      rename_i hno
      simp only [CRITICAL_CONSENSUS_THRESHOLD, ge_iff_le] at hno
      omega
    · exfalso
      rename_i hyes
      simp only [CRITICAL_CONSENSUS_THRESHOLD, ge_iff_le] at hyes
      omega
    · split
      · rfl
      · exfalso
        rename_i hno
        simp only [ge_iff_le] at hno
        omega

/-- Claim C2: consensus aggregation first discards reports whose age
`now - timestamp` is at least 21600 seconds (`recentReports`); then, per
center, at least 2 remaining critical reports (status case-insensitively
`FULL` or `CRITICAL_ISSUE`) give `final_status = CRITICAL_ISSUE` and exactly
1 gives `WARNING`. -/
theorem claim_C2_consensus (all_reports : List Report) (now : Int) (name : String) (e : AggEntry)
    (h : (aggregateReports all_reports now).lookup name = some e) :
    REPORT_TIMEOUT_SEC = 21600 ∧
    (2 ≤ (((recentReports all_reports now).filter fun r => reportName r == name).filter
        isCriticalReport).length →
      e.final_status = "CRITICAL_ISSUE") ∧
    ((((recentReports all_reports now).filter fun r => reportName r == name).filter
        isCriticalReport).length = 1 →
      e.final_status = "WARNING") := by
  simp only [aggregateReports] at h
  obtain ⟨he, -⟩ := lookup_map_self _ _ _ _ h
  subst he
  exact ⟨by decide, aggregateGroup_status _⟩

/-- Claim C2 witness: two critical `FULL` reports for center `X`, one of
them 7 hours old at query time 30000; only the fresh one survives the
window, so the aggregate is `WARNING`. -/
theorem claim_C2_witness :
    (aggregateReports
        [⟨some "X", some "FULL", "a", some 4800⟩, ⟨some "X", some "FULL", "b", some 29900⟩]
        30000).lookup "X" =
      some ⟨"WARNING", "Warning: 1 user reported critical status. Needs verification.", some 29900⟩ ∧
    (⟨"WARNING", "Warning: 1 user reported critical status. Needs verification.",
        some 29900⟩ : AggEntry).final_status = "WARNING" := by
  refine ⟨by decide, ?_⟩
  exact (claim_C2_consensus
    [⟨some "X", some "FULL", "a", some 4800⟩, ⟨some "X", some "FULL", "b", some 29900⟩]
    30000 "X" _ (by decide)).2.2 (by decide)

theorem foldl_latest (l : List Report) (init : Report) :
    ((l.foldl (fun best x => if x.timestamp.getD 0 > best.timestamp.getD 0 then x else best) init) = init ∨
      (l.foldl (fun best x => if x.timestamp.getD 0 > best.timestamp.getD 0 then x else best) init) ∈ l) ∧
    init.timestamp.getD 0 ≤
      (l.foldl (fun best x => if x.timestamp.getD 0 > best.timestamp.getD 0 then x else best) init).timestamp.getD 0 ∧
    ∀ x ∈ l, x.timestamp.getD 0 ≤
      (l.foldl (fun best x => if x.timestamp.getD 0 > best.timestamp.getD 0 then x else best) init).timestamp.getD 0 := by
  induction l generalizing init with
  | nil => exact ⟨Or.inl rfl, le_refl _, by simp⟩
  | cons y ys ih =>
    simp only [List.foldl_cons]
    by_cases hc : y.timestamp.getD 0 > init.timestamp.getD 0
    · rw [if_pos hc]
      obtain ⟨hmem, hinit, hall⟩ := ih y
      refine ⟨?_, le_trans (le_of_lt hc) hinit, ?_⟩
      · rcases hmem with h | h
        · exact Or.inr (by rw [h]; exact List.mem_cons_self _ _)
        · exact Or.inr (List.mem_cons_of_mem _ h)
      · intro x hx
        rcases List.mem_cons.mp hx with rfl | hx'
        · exact hinit
        · exact hall x hx'
    · rw [if_neg hc]
      obtain ⟨hmem, hinit, hall⟩ := ih init
      refine ⟨?_, hinit, ?_⟩
      · rcases hmem with h | h
        · exact Or.inl h
        · exact Or.inr (List.mem_cons_of_mem _ h)
      · intro x hx
        rcases List.mem_cons.mp hx with rfl | hx'
        · exact le_trans (le_of_not_lt hc) hinit
        · exact hall x hx'

theorem latestReport_spec (reports : List Report) (lr : Report)
    (h : latestReport reports = some lr) :
    lr ∈ reports ∧ ∀ x ∈ reports, x.timestamp.getD 0 ≤ lr.timestamp.getD 0 := by
  cases reports with
  | nil => simp [latestReport] at h
  | cons r rs =>
    simp only [latestReport, Option.some.injEq] at h
    subst h
    obtain ⟨hmem, hinit, hall⟩ := foldl_latest rs r
    constructor
    · rcases hmem with h | h
      · exact by rw [h]; exact List.mem_cons_self _ _
      · exact List.mem_cons_of_mem _ h
    · intro x hx
      rcases List.mem_cons.mp hx with rfl | hx'
      · exact hinit
      · exact hall x hx'

theorem mem_groupNames_aux :
    ∀ (rs : List Report) (acc : List String) (name : String),
      name ∈ rs.foldl (fun acc r =>
          if reportName r ≠ "" ∧ reportName r ∉ acc then acc ++ [reportName r] else acc) acc →
      name ∈ acc ∨ ∃ r ∈ rs, reportName r = name := by
  intro rs
  induction rs with
  | nil => intro acc name h; exact Or.inl h
  | cons r rest ih =>
    intro acc name h
    simp only [List.foldl_cons] at h
    rcases ih _ name h with hacc | ⟨r', hr', he⟩
    · by_cases hc : reportName r ≠ "" ∧ reportName r ∉ acc
      · rw [if_pos hc] at hacc
        rcases List.mem_append.mp hacc with h1 | h2
        · exact Or.inl h1
        · exact Or.inr ⟨r, List.mem_cons_self _ _, (List.mem_singleton.mp h2).symm⟩
      · rw [if_neg hc] at hacc
        exact Or.inl hacc
    · exact Or.inr ⟨r', List.mem_cons_of_mem _ hr', he⟩

theorem aggregateGroup_zero (reports : List Report) (lr : Report)
    (hl : latestReport reports = some lr)
    (hz : (reports.filter isCriticalReport).length = 0) :
    (aggregateGroup reports).final_status = lr.status.getD "OK" := by
  have h2 : ¬ ((reports.filter isCriticalReport).length ≥ CRITICAL_CONSENSUS_THRESHOLD) := by
    simp only [CRITICAL_CONSENSUS_THRESHOLD, ge_iff_le]
    omega
  have h1 : ¬ ((reports.filter isCriticalReport).length ≥ 1) := by
    simp only [ge_iff_le]
    omega
  simp only [aggregateGroup, hl, if_neg h2, if_neg h1]

/-- Claim C7 counterexample: a single fresh `NEED_BLANKETS` report for `X`
(zero critical reports in the window) yields `final_status = "NEED_BLANKETS"`
verbatim, not `"OK"` as the claim states for unrecognized keywords. -/
theorem claim_C7_counterexample :
    (aggregateReports [⟨some "X", some "NEED_BLANKETS", "a", some 1000⟩] 1000).lookup "X" =
      some ⟨"NEED_BLANKETS", "No recent critical reports.", some 1000⟩ ∧
    ([⟨some "X", some "NEED_BLANKETS", "a", some 1000⟩].filter isCriticalReport).length = 0 ∧
    "NEED_BLANKETS" ≠ "OK" := by
  refine ⟨by decide, by decide, by decide⟩

/-- Claim C7 (amended): for a center whose windowed report group has zero
critical reports, `final_status` is the raw status string of the most recent
report in the group (maximal timestamp, earliest such report on ties),
defaulting to `"OK"` only when that report has no status field at all; an
unrecognized keyword such as `NEED_BLANKETS` is NOT normalized to `OK`. -/
theorem claim_C7_latest_status (all_reports : List Report) (now : Int) (name : String) (e : AggEntry)
    (h : (aggregateReports all_reports now).lookup name = some e)
    (hzero : (((recentReports all_reports now).filter fun r => reportName r == name).filter
        isCriticalReport).length = 0) :
    ∃ latest,
      latestReport ((recentReports all_reports now).filter fun r => reportName r == name) =
        some latest ∧
      latest ∈ ((recentReports all_reports now).filter fun r => reportName r == name) ∧
      (∀ x ∈ ((recentReports all_reports now).filter fun r => reportName r == name),
        x.timestamp.getD 0 ≤ latest.timestamp.getD 0) ∧
      e.final_status = latest.status.getD "OK" := by
  simp only [aggregateReports] at h
  obtain ⟨he, hmem⟩ := lookup_map_self _ _ _ _ h
  subst he
  have hex : ∃ r ∈ recentReports all_reports now, reportName r = name := by
    rcases mem_groupNames_aux _ _ _ hmem with habs | hex
    · exact absurd habs (List.not_mem_nil _)
    · exact hex
  obtain ⟨r0, hr0, hr0n⟩ := hex
  have hg : r0 ∈ (recentReports all_reports now).filter fun r => reportName r == name := by
    rw [List.mem_filter]
    exact ⟨hr0, by simpa using hr0n⟩
  cases hlist : (recentReports all_reports now).filter fun r => reportName r == name with
  | nil => rw [hlist] at hg; exact absurd hg (List.not_mem_nil _)
  | cons a as =>
    rw [hlist] at hzero
    refine ⟨(latestReport (a :: as)).getD a, ?_, ?_, ?_, ?_⟩
    · simp [latestReport]
    · have := latestReport_spec (a :: as) ((latestReport (a :: as)).getD a) (by simp [latestReport])
      exact this.1
    · have := latestReport_spec (a :: as) ((latestReport (a :: as)).getD a) (by simp [latestReport])
      exact this.2
    · exact aggregateGroup_zero _ _ (by simp [latestReport]) hzero

/-- Claim C7 witness: applying the amended statement to a single fresh
`NEED_BLANKETS` report for `X` at time 1000. -/
theorem claim_C7_witness :
    ∃ latest,
      latestReport ((recentReports [⟨some "X", some "NEED_BLANKETS", "a", some 1000⟩] 1000).filter
          fun r => reportName r == "X") = some latest ∧
      latest ∈ ((recentReports [⟨some "X", some "NEED_BLANKETS", "a", some 1000⟩] 1000).filter
          fun r => reportName r == "X") ∧
      (∀ x ∈ ((recentReports [⟨some "X", some "NEED_BLANKETS", "a", some 1000⟩] 1000).filter
          fun r => reportName r == "X"), x.timestamp.getD 0 ≤ latest.timestamp.getD 0) ∧
      (⟨"NEED_BLANKETS", "No recent critical reports.", some 1000⟩ : AggEntry).final_status =
        latest.status.getD "OK" :=
  claim_C7_latest_status [⟨some "X", some "NEED_BLANKETS", "a", some 1000⟩] 1000 "X" _
    (by decide) (by decide)

/-- Claim C6: per-need classification priority — a present positive tag
gives MATCHED even when the negative tag is also present; otherwise a
present negative tag gives FAILED; otherwise UNKNOWN. -/
theorem claim_C6_need_priority (capabilities : List String) (pos_key neg_key : String) :
    (pos_key ∈ capabilities → classifyNeed capabilities pos_key neg_key = .MATCHED) ∧
    (pos_key ∉ capabilities → neg_key ∈ capabilities →
      classifyNeed capabilities pos_key neg_key = .FAILED) ∧
    (pos_key ∉ capabilities → neg_key ∉ capabilities →
      classifyNeed capabilities pos_key neg_key = .UNKNOWN) := by
  refine ⟨fun h => ?_, fun h1 h2 => ?_, fun h1 h2 => ?_⟩ <;> simp [classifyNeed, *]

/-- Claim C6 witness: the `pet_area` tag pair on a capability set holding
both `designated_pet_area` and `no_pets` — MATCHED wins. -/
theorem claim_C6_witness :
    "designated_pet_area" ∈ ["designated_pet_area", "no_pets"] ∧
    "no_pets" ∈ ["designated_pet_area", "no_pets"] ∧
    classifyNeed ["designated_pet_area", "no_pets"] "designated_pet_area" "no_pets" =
      .MATCHED :=
  ⟨by decide, by decide,
    (claim_C6_need_priority ["designated_pet_area", "no_pets"] "designated_pet_area" "no_pets").1
      (by decide)⟩

theorem capabilityPass_flags (lang : LangMap) (capabilities : List String) :
    ∀ (req : List String) (acc : List String × Bool × Bool),
      ((req.foldl (needAccum lang capabilities) acc).2.1 =
        (acc.2.1 && req.all (needMatches capabilities))) ∧
      ((req.foldl (needAccum lang capabilities) acc).2.2 =
        (acc.2.2 || req.any (needFails capabilities))) := by
  intro req
  induction req with
  | nil => intro acc; simp
  | cons n rest ih =>
    intro acc
    obtain ⟨fr, met, uns⟩ := acc
    simp only [List.foldl_cons, List.all_cons, List.any_cons]
    obtain ⟨ihm, ihf⟩ := ih (needAccum lang capabilities (fr, met, uns) n)
    rw [ihm, ihf]
    cases hlk : CAPABILITY_MAP.lookup n with
    | none =>
      simp [needAccum, needMatches, needFails, hlk]
    | some pr =>
      obtain ⟨pos_key, neg_key⟩ := pr
      cases hcl : classifyNeed capabilities pos_key neg_key <;>
        simp [needAccum, needMatches, needFails, hlk, hcl] <;>
        cases met <;> cases uns <;> simp

theorem capStage_fst (lang : LangMap) (needs : NeedFlags) (capabilities : List String) :
    (capStage lang needs capabilities).1 =
      (if (capabilityPass lang capabilities (requiredNeeds needs)).2.2 then "NOT_SUITABLE"
       else if (capabilityPass lang capabilities (requiredNeeds needs)).2.1 &&
           !(requiredNeeds needs).isEmpty then "BEST_MATCH"
       else "SUITABLE") := rfl

/-- Claim C5: the center classification over a non-empty set of required
needs is `NOT_SUITABLE` when some required need is FAILED, else `BEST_MATCH`
when every required need is MATCHED, else `SUITABLE`. -/
theorem claim_C5_capability_aggregate (lang : LangMap) (needs : NeedFlags)
    (capabilities : List String) (hne : requiredNeeds needs ≠ []) :
    (capStage lang needs capabilities).1 =
      (if (requiredNeeds needs).any (needFails capabilities) then "NOT_SUITABLE"
       else if (requiredNeeds needs).all (needMatches capabilities) then "BEST_MATCH"
       else "SUITABLE") := by
  rw [capStage_fst]
  obtain ⟨hm, hf⟩ :=
    capabilityPass_flags lang capabilities (requiredNeeds needs) ([], true, false)
  simp only [capabilityPass] at hm hf ⊢
  have hie : (requiredNeeds needs).isEmpty = false := by
    cases hr : requiredNeeds needs with
    | nil => exact absurd hr hne
    | cons a as => rfl
  simp only [hm, hf, hie, Bool.true_and, Bool.false_or, Bool.not_false, Bool.and_true]

/-- Claim C5 witness: needs `{ground_floor, pet_area}` against capabilities
`["ground_floor"]` — one MATCHED, one UNKNOWN, none FAILED, so `SUITABLE`. -/
theorem claim_C5_witness :
    requiredNeeds ⟨true, false, true, false⟩ ≠ [] ∧
    (capStage TRANSLATION_EN ⟨true, false, true, false⟩ ["ground_floor"]).1 =
      (if (requiredNeeds ⟨true, false, true, false⟩).any (needFails ["ground_floor"]) then
        "NOT_SUITABLE"
       else if (requiredNeeds ⟨true, false, true, false⟩).all (needMatches ["ground_floor"]) then
        "BEST_MATCH"
       else "SUITABLE") :=
  ⟨by decide,
   claim_C5_capability_aggregate TRANSLATION_EN ⟨true, false, true, false⟩ ["ground_floor"]
     (by decide)⟩

theorem buildFragments_eq (lang : LangMap) (live_aggregated : List (String × AggEntry))
    (needs : NeedFlags) (pps : Center) :
    buildFragments lang live_aggregated needs pps =
      ((liveAdjust lang (live_aggregated.lookup pps.name)
          (capStage lang needs pps.capabilities).1 (capStage lang needs pps.capabilities).2).1,
       addNoReportNotice lang
         (liveAdjust lang (live_aggregated.lookup pps.name)
           (capStage lang needs pps.capabilities).1 (capStage lang needs pps.capabilities).2).1
         (liveAdjust lang (live_aggregated.lookup pps.name)
           (capStage lang needs pps.capabilities).1 (capStage lang needs pps.capabilities).2).2) := rfl

theorem buildItem_status (lang : LangMap) (live_aggregated : List (String × AggEntry))
    (needs : NeedFlags) (pps : Center) :
    (buildItem lang live_aggregated needs pps).status =
      (buildFragments lang live_aggregated needs pps).1 := rfl

/-- Claim C3: when a center has an aggregated live status, a
`CRITICAL_ISSUE` aggregate forces the item status to `CRITICAL_ISSUE`
regardless of the capability status (so a capability `BEST_MATCH` never
survives) and pushes the live reason in front of the explanation; a
`WARNING` aggregate overrides only a capability status that is neither
`CRITICAL_ISSUE` nor `NOT_SUITABLE`; any other aggregate leaves the
capability status as is. -/
theorem claim_C3_live_override (lang : LangMap) (live_aggregated : List (String × AggEntry))
    (needs : NeedFlags) (pps : Center) (e : AggEntry)
    (h : live_aggregated.lookup pps.name = some e) :
    (e.final_status = "CRITICAL_ISSUE" →
      (buildItem lang live_aggregated needs pps).status = "CRITICAL_ISSUE" ∧
      (buildFragments lang live_aggregated needs pps).2.head? =
        some (lang.criticalPre ++ " " ++ e.reason)) ∧
    (e.final_status = "WARNING" →
      (buildItem lang live_aggregated needs pps).status =
        (if (capStage lang needs pps.capabilities).1 ∈ ["CRITICAL_ISSUE", "NOT_SUITABLE"] then
          (capStage lang needs pps.capabilities).1
         else "WARNING")) ∧
    (e.final_status ≠ "CRITICAL_ISSUE" → e.final_status ≠ "WARNING" →
      (buildItem lang live_aggregated needs pps).status =
        (capStage lang needs pps.capabilities).1) := by
  refine ⟨fun hc => ?_, fun hw => ?_, fun h1 h2 => ?_⟩
  · rw [buildItem_status, buildFragments_eq]
    simp [liveAdjust, h, hc, addNoReportNotice]
  · rw [buildItem_status, buildFragments_eq]
    by_cases hmem : (capStage lang needs pps.capabilities).1 ∈ ["CRITICAL_ISSUE", "NOT_SUITABLE"]
    · simp [liveAdjust, h, hw, hmem]
    · simp [liveAdjust, h, hw, hmem]
  · rw [buildItem_status, buildFragments_eq]
    simp [liveAdjust, h, h1, h2]

/-- Claim C3 witness: a capability `BEST_MATCH` center (`designated_pet_area`
for a pet need) with a `CRITICAL_ISSUE` aggregate ends as `CRITICAL_ISSUE`
with the live reason in front. -/
theorem claim_C3_witness :
    ([("B", ⟨"CRITICAL_ISSUE", "bad", some 5⟩)] : List (String × AggEntry)).lookup "B" =
      some ⟨"CRITICAL_ISSUE", "bad", some 5⟩ ∧
    (capStage TRANSLATION_EN ⟨false, false, true, false⟩ ["designated_pet_area"]).1 =
      "BEST_MATCH" ∧
    ((buildItem TRANSLATION_EN [("B", ⟨"CRITICAL_ISSUE", "bad", some 5⟩)]
        ⟨false, false, true, false⟩
        ⟨"B", some 3, some 101, ["designated_pet_area"], some 1⟩).status = "CRITICAL_ISSUE" ∧
      (buildFragments TRANSLATION_EN [("B", ⟨"CRITICAL_ISSUE", "bad", some 5⟩)]
          ⟨false, false, true, false⟩
          ⟨"B", some 3, some 101, ["designated_pet_area"], some 1⟩).2.head? =
        some (TRANSLATION_EN.criticalPre ++ " " ++
          (⟨"CRITICAL_ISSUE", "bad", some 5⟩ : AggEntry).reason)) :=
  ⟨by decide, by decide,
    (claim_C3_live_override TRANSLATION_EN [("B", ⟨"CRITICAL_ISSUE", "bad", some 5⟩)]
        ⟨false, false, true, false⟩
        ⟨"B", some 3, some 101, ["designated_pet_area"], some 1⟩
        ⟨"CRITICAL_ISSUE", "bad", some 5⟩ (by decide)).1 (by decide)⟩

/-- Claim C9 counterexample: a `NOT_SUITABLE` center (`no_pets` against a pet
need) with no live report gets no live-status text, yet the localized
no-report notice is NOT appended: it appears neither among the reason
fragments nor inside the rendered reason string. -/
theorem claim_C9_counterexample :
    ([] : List (String × AggEntry)).lookup "A" = none ∧
    (buildFragments TRANSLATION_EN [] ⟨false, false, true, false⟩
        ⟨"A", some 1, some 2, ["no_pets"], none⟩).1 = "NOT_SUITABLE" ∧
    TRANSLATION_EN.no_report ∉ (buildFragments TRANSLATION_EN [] ⟨false, false, true, false⟩
        ⟨"A", some 1, some 2, ["no_pets"], none⟩).2 ∧
    containsSub TRANSLATION_EN.no_report.data
      (buildItem TRANSLATION_EN [] ⟨false, false, true, false⟩
        ⟨"A", some 1, some 2, ["no_pets"], none⟩).reason.data = false := by
  refine ⟨rfl, by decide, by decide, by decide⟩

/-- Claim C9 (amended): the localized no-report notice is appended exactly
when the item's final status is none of `CRITICAL_ISSUE`, `WARNING`,
`NOT_SUITABLE`; in particular a `NOT_SUITABLE` center never receives the
notice even though no live-status text was applied to it either. -/
theorem claim_C9_notice (lang : LangMap) (live_aggregated : List (String × AggEntry))
    (needs : NeedFlags) (pps : Center) :
    ((buildFragments lang live_aggregated needs pps).1 ∉
        ["CRITICAL_ISSUE", "WARNING", "NOT_SUITABLE"] →
      (buildFragments lang live_aggregated needs pps).2 =
        (liveAdjust lang (live_aggregated.lookup pps.name)
          (capStage lang needs pps.capabilities).1
          (capStage lang needs pps.capabilities).2).2 ++ [lang.no_report]) ∧
    ((buildFragments lang live_aggregated needs pps).1 ∈
        ["CRITICAL_ISSUE", "WARNING", "NOT_SUITABLE"] →
      (buildFragments lang live_aggregated needs pps).2 =
        (liveAdjust lang (live_aggregated.lookup pps.name)
          (capStage lang needs pps.capabilities).1
          (capStage lang needs pps.capabilities).2).2) := by
  rw [buildFragments_eq]
  constructor
  · intro hni
    simp only [addNoReportNotice, if_pos hni]
  · intro hin
    have : ¬ ((liveAdjust lang (live_aggregated.lookup pps.name)
        (capStage lang needs pps.capabilities).1
        (capStage lang needs pps.capabilities).2).1 ∉
          ["CRITICAL_ISSUE", "WARNING", "NOT_SUITABLE"]) := fun hc => hc hin
    simp only [addNoReportNotice, if_neg this]

/-- Claim C9 witness: a `BEST_MATCH` center with no live report gets the
notice appended after its capability fragments. -/
theorem claim_C9_witness :
    (buildFragments TRANSLATION_EN [] ⟨false, false, true, false⟩
        ⟨"B", some 1, some 2, ["designated_pet_area"], none⟩).1 ∉
      ["CRITICAL_ISSUE", "WARNING", "NOT_SUITABLE"] ∧
    (buildFragments TRANSLATION_EN [] ⟨false, false, true, false⟩
        ⟨"B", some 1, some 2, ["designated_pet_area"], none⟩).2 =
      (liveAdjust TRANSLATION_EN
        (([] : List (String × AggEntry)).lookup
          (⟨"B", some 1, some 2, ["designated_pet_area"], none⟩ : Center).name)
        (capStage TRANSLATION_EN ⟨false, false, true, false⟩
          (⟨"B", some 1, some 2, ["designated_pet_area"], none⟩ : Center).capabilities).1
        (capStage TRANSLATION_EN ⟨false, false, true, false⟩
          (⟨"B", some 1, some 2, ["designated_pet_area"], none⟩ : Center).capabilities).2).2 ++
      [TRANSLATION_EN.no_report] :=
  ⟨by decide,
   (claim_C9_notice TRANSLATION_EN [] ⟨false, false, true, false⟩
      ⟨"B", some 1, some 2, ["designated_pet_area"], none⟩).1 (by decide)⟩

theorem recLe_trans : ∀ (a b c : RecItem), recLe a b → recLe b c → recLe a c := by
  intro a b c hab hbc
  simp only [recLe, decide_eq_true_eq] at *
  rcases hab with h1 | ⟨h1, h1d⟩ <;> rcases hbc with h2 | ⟨h2, h2d⟩
  · exact Or.inl (lt_trans h1 h2)
  · exact Or.inl (h2 ▸ h1)
  · exact Or.inl (h1 ▸ h2)
  · exact Or.inr ⟨h1.trans h2, le_trans h1d h2d⟩

theorem recLe_total : ∀ (a b : RecItem), recLe a b || recLe b a := by
  intro a b
  simp only [recLe, Bool.or_eq_true, decide_eq_true_eq]
  rcases lt_trichotomy (STATUS_RANKING a.status) (STATUS_RANKING b.status) with h | h | h
  · exact Or.inl (Or.inl h)
  · rcases le_total a.distance_km b.distance_km with hd | hd
    · exact Or.inl (Or.inr ⟨h, hd⟩)
    · exact Or.inr (Or.inr ⟨h.symm, hd⟩)
  · exact Or.inr (Or.inl h)

theorem capStage_status_mem (lang : LangMap) (needs : NeedFlags) (capabilities : List String) :
    (capStage lang needs capabilities).1 ∈ ["NOT_SUITABLE", "BEST_MATCH", "SUITABLE"] := by
  rw [capStage_fst]
  split
  · simp
  · split <;> simp

theorem liveAdjust_status (lang : LangMap) (live_report : Option AggEntry)
    (status : String) (final_reason : List String) :
    (liveAdjust lang live_report status final_reason).1 = status ∨
    (liveAdjust lang live_report status final_reason).1 ∈ ["CRITICAL_ISSUE", "WARNING"] := by
  cases live_report with
  | none => exact Or.inl rfl
  | some live =>
    simp only [liveAdjust]
    split
    · simp
    · split
      · split
        · simp
        · exact Or.inl rfl
      · exact Or.inl rfl

theorem buildItem_status_mem (lang : LangMap) (live_aggregated : List (String × AggEntry))
    (needs : NeedFlags) (pps : Center) :
    (buildItem lang live_aggregated needs pps).status ∈
      ["BEST_MATCH", "SUITABLE", "WARNING", "CRITICAL_ISSUE", "NOT_SUITABLE"] := by
  rw [buildItem_status, buildFragments_eq]
  rcases liveAdjust_status lang (live_aggregated.lookup pps.name)
      (capStage lang needs pps.capabilities).1 (capStage lang needs pps.capabilities).2 with
    h | h
  · rw [h]
    have := capStage_status_mem lang needs pps.capabilities
    simp only [List.mem_cons, List.mem_singleton] at this ⊢
    tauto
  · simp only [List.mem_cons, List.mem_singleton] at h ⊢
    tauto

theorem rank_inj :
    ∀ s1 ∈ ["BEST_MATCH", "SUITABLE", "WARNING", "CRITICAL_ISSUE", "NOT_SUITABLE"],
      ∀ s2 ∈ ["BEST_MATCH", "SUITABLE", "WARNING", "CRITICAL_ISSUE", "NOT_SUITABLE"],
        STATUS_RANKING s1 = STATUS_RANKING s2 → s1 = s2 := by decide

theorem run_actions_if_needs (query language : String) (dist : Center → Rat)
    (centers : List Center) (live_aggregated : List (String × AggEntry))
    (h : ((needsItems (extract_needs query)).any fun x => x.2) = true) :
    run_actions query language dist centers live_aggregated =
      .recs ((((run_actions_center_effect dist centers).filter
          fun c => c.lat.isSome && c.lon.isSome).map
        (buildItem ((TRANSLATION_MAP.lookup (asciiLower language)).getD TRANSLATION_EN)
          live_aggregated (extract_needs query))).mergeSort recLe) := by
  simp only [run_actions, h, if_true]

/-- Claim C4: whenever `run_actions` returns a recommendation list (the
query had at least one detected need), adjacent items are ordered by
strictly smaller `STATUS_RANKING` (priority
`BEST_MATCH < SUITABLE < WARNING < CRITICAL_ISSUE < NOT_SUITABLE`), or have
equal status and non-decreasing `distance_km`. -/
theorem claim_C4_ranking (query language : String) (dist : Center → Rat)
    (centers : List Center) (live_aggregated : List (String × AggEntry))
    (items : List RecItem)
    (h : run_actions query language dist centers live_aggregated = .recs items) :
    items.Chain' (fun a b =>
      STATUS_RANKING a.status < STATUS_RANKING b.status ∨
      (a.status = b.status ∧ a.distance_km ≤ b.distance_km)) := by
  simp only [run_actions] at h
  split at h
  case isFalse => exact absurd h (by simp)
  case isTrue hn =>
    have hitems :
        items = (((run_actions_center_effect dist centers).filter
            fun c => c.lat.isSome && c.lon.isSome).map
          (buildItem ((TRANSLATION_MAP.lookup (asciiLower language)).getD TRANSLATION_EN)
            live_aggregated (extract_needs query))).mergeSort recLe := by
      have := h
      injection this with h2
      exact h2.symm
    subst hitems
    have hp := List.sorted_mergeSort recLe_trans recLe_total
      (((run_actions_center_effect dist centers).filter
          fun c => c.lat.isSome && c.lon.isSome).map
        (buildItem ((TRANSLATION_MAP.lookup (asciiLower language)).getD TRANSLATION_EN)
          live_aggregated (extract_needs query)))
    have hs : ∀ x ∈ (((run_actions_center_effect dist centers).filter
          fun c => c.lat.isSome && c.lon.isSome).map
        (buildItem ((TRANSLATION_MAP.lookup (asciiLower language)).getD TRANSLATION_EN)
          live_aggregated (extract_needs query))).mergeSort recLe,
        x.status ∈ ["BEST_MATCH", "SUITABLE", "WARNING", "CRITICAL_ISSUE", "NOT_SUITABLE"] := by
      intro x hx
      rw [List.mem_mergeSort] at hx
      obtain ⟨pps, -, rfl⟩ := List.mem_map.mp hx
      exact buildItem_status_mem _ _ _ _
    refine List.Pairwise.chain' (List.Pairwise.imp_of_mem ?_ hp)
    intro a b ha hb hr
    simp only [recLe, decide_eq_true_eq] at hr
    rcases hr with h1 | ⟨h1, h2⟩
    · exact Or.inl h1
    · exact Or.inr ⟨rank_inj _ (hs a ha) _ (hs b hb) h1, h2⟩

/-- Claim C4 witness: a pet query over `BEST_MATCH` center `B` (distance 1)
and `NOT_SUITABLE` center `A` (distance 2); the returned list is sorted by
the ranking chain. -/
theorem claim_C4_witness :
    (itemsOf (run_actions "cat" "en" (fun c => if c.name == "B" then 1 else 2)
        [⟨"B", some 1, some 2, ["designated_pet_area"], none⟩,
         ⟨"A", some 1, some 2, ["no_pets"], none⟩] [])).Chain' (fun a b =>
      STATUS_RANKING a.status < STATUS_RANKING b.status ∨
      (a.status = b.status ∧ a.distance_km ≤ b.distance_km)) := by
  have hrun : run_actions "cat" "en" (fun c => if c.name == "B" then 1 else 2)
      [⟨"B", some 1, some 2, ["designated_pet_area"], none⟩,
       ⟨"A", some 1, some 2, ["no_pets"], none⟩] [] =
      .recs ((((run_actions_center_effect (fun c => if c.name == "B" then 1 else 2)
          [⟨"B", some 1, some 2, ["designated_pet_area"], none⟩,
           ⟨"A", some 1, some 2, ["no_pets"], none⟩]).filter
            fun c => c.lat.isSome && c.lon.isSome).map
        (buildItem ((TRANSLATION_MAP.lookup (asciiLower "en")).getD TRANSLATION_EN) []
          (extract_needs "cat"))) : List RecItem) := by
    rw [run_actions_if_needs _ _ _ _ _ (by decide),
      List.mergeSort_of_sorted (by decide)]
  have := claim_C4_ranking "cat" "en" (fun c => if c.name == "B" then 1 else 2)
    [⟨"B", some 1, some 2, ["designated_pet_area"], none⟩,
     ⟨"A", some 1, some 2, ["no_pets"], none⟩] [] _ hrun
  rw [hrun]
  exact this

theorem isPrefixOf_true_iff : ∀ (l1 l2 : List Char), l1.isPrefixOf l2 = true ↔ ∃ t, l2 = l1 ++ t := by
  intro l1
  induction l1 with
  | nil => intro l2; simp [List.isPrefixOf]
  | cons a as ih =>
    intro l2
    cases l2 with
    | nil => simp [List.isPrefixOf]
    | cons b bs =>
      simp only [List.isPrefixOf, Bool.and_eq_true, beq_iff_eq, ih, List.cons_append,
        List.cons.injEq]
      constructor
      · rintro ⟨rfl, t, rfl⟩
        exact ⟨t, rfl, rfl⟩
      · rintro ⟨t, rfl, rfl⟩
        exact ⟨rfl, t, rfl⟩

theorem containsSub_iff (needle : List Char) :
    ∀ hay, containsSub needle hay = true ↔ ∃ pre post, hay = pre ++ needle ++ post := by
  intro hay
  induction hay with
  | nil =>
    simp only [containsSub, List.isEmpty_iff]
    constructor
    · rintro rfl
      exact ⟨[], [], rfl⟩
    · rintro ⟨pre, post, h⟩
      rcases List.append_eq_nil.mp (List.append_eq_nil.mp h.symm).1 with ⟨-, h2⟩
      exact h2
  | cons c rest ih =>
    simp only [containsSub, Bool.or_eq_true, isPrefixOf_true_iff, ih]
    constructor
    · rintro (⟨t, ht⟩ | ⟨pre, post, h⟩)
      · exact ⟨[], t, by simpa using ht⟩
      · exact ⟨c :: pre, post, by simp [h]⟩
    · rintro ⟨pre, post, h⟩
      cases pre with
      | nil => exact Or.inl ⟨post, by simpa using h⟩
      | cons p ps =>
        rw [List.cons_append, List.cons_append, List.cons.injEq] at h
        exact Or.inr ⟨ps, post, h.2⟩

/-- Claim C8: `extract_needs` is total with exactly the four flags; each
flag is true exactly when one of its keyword literals occurs anywhere in the
query as a case-insensitive substring (so "no pets" sets `pet_area`, and a
keyword inside a longer word such as "carpets" also matches); calling it
twice on the same query gives identical results. -/
theorem claim_C8_extract_needs (query : String) :
    ((extract_needs query).ground_floor = true ↔
      ∃ p ∈ GROUND_FLOOR_PATTERNS, ∃ pre post,
        (asciiLower query).data = pre ++ (asciiLower p).data ++ post) ∧
    ((extract_needs query).oku_toilets = true ↔
      ∃ p ∈ OKU_TOILETS_PATTERNS, ∃ pre post,
        (asciiLower query).data = pre ++ (asciiLower p).data ++ post) ∧
    ((extract_needs query).pet_area = true ↔
      ∃ p ∈ PET_AREA_PATTERNS, ∃ pre post,
        (asciiLower query).data = pre ++ (asciiLower p).data ++ post) ∧
    ((extract_needs query).family_room = true ↔
      ∃ p ∈ FAMILY_ROOM_PATTERNS, ∃ pre post,
        (asciiLower query).data = pre ++ (asciiLower p).data ++ post) ∧
    extract_needs query = extract_needs query ∧
    (extract_needs "no pets").pet_area = true ∧
    (extract_needs "carpets").pet_area = true := by
  refine ⟨?_, ?_, ?_, ?_, rfl, by decide, by decide⟩ <;>
    simp [extract_needs, searchCI, List.any_eq_true, containsSub_iff]

/-- Claim C1 counterexample: starting from an empty report log, two `FULL`
reports for center `B` from distinct reporters (timestamps 1000 and 1001,
both inside the 6-hour window: rebuilding the aggregate at time 1001 would
give `CRITICAL_ISSUE`) are submitted and acknowledged; the very next
`run_actions` call still classifies `B` as `BEST_MATCH`, because the
endpoint performs no consensus rebuild before acknowledging. -/
theorem claim_C1_counterexample :
    (aggregateReports
        ((report_pps_status (report_pps_status (startup_state [] 1000) "B" "FULL" "r1" 1000).1
            "B" "FULL" "r2" 1001).1).reports_file 1001).lookup "B" =
      some ⟨"CRITICAL_ISSUE", "Consensus: 2 recent reports confirm critical status.", some 1001⟩ ∧
    (itemsOf (run_actions "cat" "en" (fun _ => 1)
        [⟨"B", some 3, some 101, ["designated_pet_area"], none⟩]
        ((report_pps_status (report_pps_status (startup_state [] 1000) "B" "FULL" "r1" 1000).1
            "B" "FULL" "r2" 1001).1).live_reports_aggregated)).map (fun i => i.status) =
      ["BEST_MATCH"] ∧
    "BEST_MATCH" ≠ "CRITICAL_ISSUE" := by
  refine ⟨by decide, ?_, by decide⟩
  rw [run_actions_if_needs _ _ _ _ _ (by decide)]
  rw [show ((run_actions_center_effect (fun _ => (1 : Rat))
      [⟨"B", some 3, some 101, ["designated_pet_area"], none⟩]).filter
        fun c => c.lat.isSome && c.lon.isSome) =
      [⟨"B", some 3, some 101, ["designated_pet_area"], some 1⟩] from by decide]
  simp only [List.map_cons, List.map_nil, List.mergeSort_singleton, itemsOf]
  decide

/-- Claim C1 (amended): `report_pps_status` appends the report (with the
server timestamp) to the durable log but performs no consensus rebuild:
`LIVE_REPORTS_AGGREGATED` is unchanged by a submission, so the very next
`run_actions` call returns exactly what it returned before the submission;
new reports only become visible when `refresh_live_reports_from_disk` runs
again (at module import). -/
theorem claim_C1_no_rebuild (s : ServerState) (pps_name status reporter_id : String) (now : Int) :
    ((report_pps_status s pps_name status reporter_id now).1).live_reports_aggregated =
      s.live_reports_aggregated ∧
    ((report_pps_status s pps_name status reporter_id now).1).reports_file =
      s.reports_file ++ [⟨some pps_name, some status, reporter_id, some now⟩] ∧
    ∀ (query language : String) (dist : Center → Rat) (centers : List Center),
      run_actions query language dist centers
          ((report_pps_status s pps_name status reporter_id now).1).live_reports_aggregated =
        run_actions query language dist centers s.live_reports_aggregated :=
  ⟨rfl, rfl, fun _ _ _ _ => rfl⟩

/-- Claim C10 counterexample: `run_actions` mutates the shared center
records: a center loaded without a `distance_km` key carries one after the
distance loop, so the record is not left unchanged. -/
theorem claim_C10_counterexample :
    run_actions_center_effect (fun _ => 1) [⟨"A", some 3, some 101, [], none⟩] ≠
      [⟨"A", some 3, some 101, [], none⟩] ∧
    run_actions_center_effect (fun _ => 1) [⟨"A", some 3, some 101, [], none⟩] =
      [⟨"A", some 3, some 101, [], some 1⟩] := by
  refine ⟨by decide, by decide⟩

/-- Claim C10 (amended): the distance loop of `run_actions` writes the
`distance_km` field into every shared center record that has coordinates,
and writes nothing else: `name`, `lat`, `lon` and `capabilities` are
unchanged for every center. -/
theorem claim_C10_fields_preserved (dist : Center → Rat) (centers : List Center) :
    (run_actions_center_effect dist centers).map (fun c => c.name) =
      centers.map (fun c => c.name) ∧
    (run_actions_center_effect dist centers).map (fun c => c.lat) =
      centers.map (fun c => c.lat) ∧
    (run_actions_center_effect dist centers).map (fun c => c.lon) =
      centers.map (fun c => c.lon) ∧
    (run_actions_center_effect dist centers).map (fun c => c.capabilities) =
      centers.map (fun c => c.capabilities) := by
  simp only [run_actions_center_effect, List.map_map]
  refine ⟨?_, ?_, ?_, ?_⟩ <;>
    (apply List.map_congr_left; intro c _; simp only [Function.comp]; split <;> rfl)
